import Mathlib

/-!
Verification development for the `worker-nostr-r2-upload` Cloudflare Worker
(variant `src/unnamed/part_001`): a content-addressed R2 file store whose
writes and deletes are authorized by NIP-98 signed events.

The embedding keeps the source's structure: the router handlers `headFile`,
`getFile`, `putFile`, `deleteFile`, the `auth`/`restricted` middleware chain,
and the asynchronous provenance writer `handleMetadada` are translated
directly from the TypeScript.  External collaborators (the R2 bucket, the
role KV store) are explicit state; external library functions from the
nostr-tools dependency (`nip98.validateEvent`, `nip26.getDelegator`,
`finishEvent`) are modelled from the specification, with the cryptographic
checks abstracted as boolean oracles.  SHA-256 is implemented concretely so
content-addressing claims are decidable on concrete inputs.
-/

namespace NostrR2

/-! ## Bytes, hex, SHA-256 -/

/-- A byte string, each entry intended below 256 (masked where it matters). -/
abbrev Bytes := List Nat

/-- Mask to 32 bits. -/
def m32 (x : Nat) : Nat := x &&& 0xFFFFFFFF

/-- Rotate a 32-bit word right by `n`. -/
def rotr (n x : Nat) : Nat := m32 ((x >>> n) ||| (x <<< (32 - n)))

/-- SHA-256 big sigma 0. -/
def bsig0 (x : Nat) : Nat := (rotr 2 x) ^^^ (rotr 13 x) ^^^ (rotr 22 x)

/-- SHA-256 big sigma 1. -/
def bsig1 (x : Nat) : Nat := (rotr 6 x) ^^^ (rotr 11 x) ^^^ (rotr 25 x)

/-- SHA-256 small sigma 0. -/
def ssig0 (x : Nat) : Nat := (rotr 7 x) ^^^ (rotr 18 x) ^^^ (x >>> 3)

/-- SHA-256 small sigma 1. -/
def ssig1 (x : Nat) : Nat := (rotr 17 x) ^^^ (rotr 19 x) ^^^ (x >>> 10)

/-- SHA-256 round constants (FIPS 180-4), written in decimal. -/
def shaK : List Nat :=
  [1116352408, 1899447441, 3049323471, 3921009573, 961987163,
   1508970993, 2453635748, 2870763221, 3624381080, 310598401,
   607225278, 1426881987, 1925078388, 2162078206, 2614888103,
   3248222580, 3835390401, 4022224774, 264347078, 604807628,
   770255983, 1249150122, 1555081692, 1996064986, 2554220882,
   2821834349, 2952996808, 3210313671, 3336571891, 3584528711,
   113926993, 338241895, 666307205, 773529912, 1294757372,
   1396182291, 1695183700, 1986661051, 2177026350, 2456956037,
   2730485921, 2820302411, 3259730800, 3345764771, 3516065817,
   3600352804, 4094571909, 275423344, 430227734, 506948616,
   659060556, 883997877, 958139571, 1322822218, 1537002063,
   1747873779, 1955562222, 2024104815, 2227730452, 2361852424,
   2428436474, 2756734187, 3204031479, 3329325298]

/-- SHA-256 initial hash state (FIPS 180-4), written in decimal. -/
def shaH0 : List Nat :=
  [1779033703, 3144134277, 1013904242, 2773480762,
   1359893119, 2600822924, 528734635, 1541459225]

/-- Assemble big-endian 32-bit words from bytes, four at a time. -/
def toWords : Bytes → List Nat
  | b0 :: b1 :: b2 :: b3 :: rest =>
    (((b0 % 256) <<< 24) ||| ((b1 % 256) <<< 16) ||| ((b2 % 256) <<< 8) ||| (b3 % 256)) :: toWords rest
  | _ => []

/-- Extend the 16-word message schedule to 64 words; `acc` holds the words
computed so far, newest first. -/
def extendW : Nat → List Nat → List Nat
  | 0, acc => acc.reverse
  | n + 1, acc =>
    let w := m32 (ssig1 (acc.getD 1 0) + acc.getD 6 0 + ssig0 (acc.getD 14 0) + acc.getD 15 0)
    extendW n (w :: acc)

/-- One SHA-256 round: fold the round constant and schedule word into the
eight-word working state. -/
def compressStep (s : List Nat) (kw : Nat × Nat) : List Nat :=
  match s with
  | [a, b, c, d, e, f, g, h] =>
    let ch := (e &&& f) ^^^ ((0xFFFFFFFF ^^^ e) &&& g)
    let maj := (a &&& b) ^^^ (a &&& c) ^^^ (b &&& c)
    let t1 := m32 (h + bsig1 e + ch + kw.1 + kw.2)
    let t2 := m32 (bsig0 a + maj)
    [m32 (t1 + t2), a, b, c, m32 (d + t1), e, f, g]
  | s => s

/-- Compress one 64-byte block into the hash state. -/
def compressBlock (h : List Nat) (block : Bytes) : List Nat :=
  let w16 := toWords block
  let ws := extendW 48 w16.reverse
  let s := (shaK.zip ws).foldl compressStep h
  List.zipWith (fun x y => m32 (x + y)) h s

/-- Process `n` 64-byte blocks of the padded message. -/
def processBlocks : Nat → Bytes → List Nat → List Nat
  | 0, _, h => h
  | n + 1, msg, h => processBlocks n (msg.drop 64) (compressBlock h (msg.take 64))

/-- The eight length bytes of SHA-256 padding, big-endian bit count. -/
def lenBytes (n : Nat) : Bytes :=
  [(n >>> 56) &&& 255, (n >>> 48) &&& 255, (n >>> 40) &&& 255, (n >>> 32) &&& 255,
   (n >>> 24) &&& 255, (n >>> 16) &&& 255, (n >>> 8) &&& 255, n &&& 255]

/-- SHA-256 padding: a 0x80 byte, zeros to 56 mod 64, then the bit length. -/
def padMessage (msg : Bytes) : Bytes :=
  let L := msg.length
  msg ++ 0x80 :: List.replicate ((119 - (L % 64)) % 64) 0 ++ lenBytes (8 * L)

/-- The four big-endian bytes of a 32-bit word. -/
def wordBytes (w : Nat) : Bytes :=
  [(w >>> 24) &&& 255, (w >>> 16) &&& 255, (w >>> 8) &&& 255, w &&& 255]

/-- SHA-256 of a byte string, as 32 digest bytes. -/
def sha256 (msg : Bytes) : Bytes :=
  let p := padMessage msg
  ((processBlocks (p.length / 64) p shaH0).map wordBytes).flatten

/-! ## Hex strings -/

/-- Lowercase hex digit for a nibble (any value 15 or above prints as f, so
every produced character is a lowercase hex digit). -/
def hexDigit (n : Nat) : Char :=
  match n with
  | 0 => '0' | 1 => '1' | 2 => '2' | 3 => '3' | 4 => '4'
  | 5 => '5' | 6 => '6' | 7 => '7' | 8 => '8' | 9 => '9'
  | 10 => 'a' | 11 => 'b' | 12 => 'c' | 13 => 'd' | 14 => 'e'
  | _ => 'f'

/-- Two lowercase hex characters of a byte. -/
def byteToHex (b : Nat) : List Char := [hexDigit (b / 16 % 16), hexDigit (b % 16)]

/-- Lowercase hex encoding of bytes, as `bytesToHex` from @noble/hashes. -/
def bytesToHex (l : Bytes) : String := ⟨(l.map byteToHex).flatten⟩

/-- Value of one hex character, upper or lower case. -/
def hexVal (c : Char) : Option Nat :=
  if '0' ≤ c ∧ c ≤ '9' then some (c.toNat - 48)
  else if 'a' ≤ c ∧ c ≤ 'f' then some (c.toNat - 87)
  else if 'A' ≤ c ∧ c ≤ 'F' then some (c.toNat - 55)
  else none

/-- Decode hex characters two at a time. -/
def hexDecodeChars : List Char → Option Bytes
  | [] => some []
  | c1 :: c2 :: rest =>
    match hexVal c1, hexVal c2, hexDecodeChars rest with
    | some hi, some lo, some t => some ((16 * hi + lo) :: t)
    | _, _, _ => none
  | [_] => none

/-- Case-insensitive hex decoding of a string to bytes. -/
def hexDecode (s : String) : Option Bytes := hexDecodeChars s.data

/-- The source's `hexKeyPattern` test: exactly 64 hex characters. -/
def isHex64 (s : String) : Bool := s.data.length == 64 && s.data.all (fun c => (hexVal c).isSome)

/-- A character is a lowercase hex digit. -/
def isLowerHexChar (c : Char) : Bool := ('0' ≤ c && c ≤ '9') || ('a' ≤ c && c ≤ 'f')

/-- Lowercase an ASCII character, as JavaScript toLowerCase on ASCII. -/
def asciiToLower (c : Char) : Char :=
  if 'A' ≤ c ∧ c ≤ 'Z' then Char.ofNat (c.toNat + 32) else c

/-- Lowercase an ASCII string. -/
def strToLower (s : String) : String := ⟨s.data.map asciiToLower⟩

/-! ## Nostr events and the modelled nostr-tools dependency -/

/-- A nostr signed event, the `Event` type of nostr-tools: the signer's
public key, the event kind, creation time, an ordered tag list, free-form
content and a signature. -/
structure NostrEvent where
  pubkey : String
  kind : Nat
  created_at : Nat
  tags : List (List String)
  content : String
  sig : String
deriving DecidableEq, Repr

/-- An unsigned event under construction, nostr-tools `EventTemplate`. -/
structure EventTemplate where
  kind : Nat
  created_at : Nat
  tags : List (List String)
  content : String
deriving DecidableEq, Repr

/-- A parsed NIP-26 delegation header value, nostr-tools `nip26.Delegation`:
the delegator identity, the condition string and the delegation signature. -/
structure Delegation where
  from_ : String
  cond : String
  sig : String
deriving DecidableEq, Repr

/-- First tag of an event whose head is `name`, as
`event.tags.find(t => t[0] === name)`. -/
def findTag (ev : NostrEvent) (name : String) : Option (List String) :=
  ev.tags.find? (fun t => t.head? == some name)

/-- The oracles abstracting the cryptographic parts of the external
nostr-tools dependency and the blob store's checksum recording: `credOk`
stands for NIP-98 signature validity plus token freshness, `delegValid` for
NIP-26 delegation-token validity, `getPublicKey`/`sign` for key derivation
and Schnorr signing, and `r2Records` for whether the blob store's returned
object descriptor carries a sha256 checksum. -/
structure Oracles where
  credOk : NostrEvent → Bool
  delegValid : NostrEvent → Bool
  getPublicKey : String → String
  sign : String → EventTemplate → String
  r2Records : Bool

/-- Whether the event's `u` tag equals the request URL exactly and its
`method` tag equals the request method case-insensitively — the request
binding half of NIP-98 token validation (spec section 4.1). -/
def uMethodBound (ev : NostrEvent) (url method : String) : Bool :=
  (match findTag ev "u" with
   | some t => t.getD 1 "" == url
   | none => false)
  && (match findTag ev "method" with
      | some t => strToLower (t.getD 1 "") == strToLower method
      | none => false)

/-- Modelled from the spec: `nip98.validateEvent` lives in the external
nostr-tools dependency, not in this repository. Per spec section 4.1 a token
is valid iff it has the HTTP-auth kind 27235, its `u` tag equals the
request's full URL exactly, its `method` tag matches the request's HTTP
method case-insensitively, and its signature and freshness check out
(abstracted as the `credOk` oracle). -/
def validateEvent (o : Oracles) (ev : NostrEvent) (url method : String) : Bool :=
  ev.kind == 27235 && uMethodBound ev url method && o.credOk ev

/-- Modelled from the spec: `nip26.getDelegator` lives in the external
nostr-tools dependency. Per spec sections 3 and 4.3 it reads the event's
`delegation` tag `(from, condition, signature)` and returns `from` when the
delegation signature binds `from` to the event's signer under the condition
(abstracted as the `delegValid` oracle); with no tag or a failed
verification it yields no delegator. -/
def getDelegator (o : Oracles) (ev : NostrEvent) : Option String :=
  match findTag ev "delegation" with
  | some t => if o.delegValid ev then t.get? 1 else none
  | none => none

/-- Modelled from the spec: nostr-tools `getBlankEvent` returns an empty
event template of the given kind. -/
def getBlankEvent (k : Nat) : EventTemplate :=
  { kind := k, created_at := 0, tags := [], content := "" }

/-- Modelled from the spec: nostr-tools `finishEvent` signs a template with
a private key, stamping the signer's public key and signature (spec section
4.5: the provenance event is signed with the service's own signing key). -/
def finishEvent (o : Oracles) (t : EventTemplate) (privateKey : String) : NostrEvent :=
  { pubkey := o.getPublicKey privateKey, kind := t.kind, created_at := t.created_at,
    tags := t.tags, content := t.content, sig := o.sign privateKey t }

/-! ## The external collaborators: R2 bucket and role KV store -/

/-- The fields of an `R2Object` descriptor the handlers use: key, stored
bytes, HTTP metadata, size, and the recorded sha256 checksum. -/
structure R2ObjectData where
  key : String
  body : Bytes
  contentType : Option String
  cacheControl : Option String
  size : Nat
  sha256Checksum : Option Bytes
deriving DecidableEq, Repr

/-- A value stored in the bucket: either a raw object from a file upload, or
the JSON-serialized signed metadata event written by `handleMetadada`
(serialization and the later `json()` parse are modelled as inverse). -/
inductive Entry
  | obj (o : R2ObjectData)
  | doc (ev : NostrEvent)
deriving DecidableEq, Repr

/-- The bucket contents, keyed by object key. -/
abbrev Bucket := List (String × Entry)

/-- Look up a bucket key. -/
def bucketFind (b : Bucket) (k : String) : Option Entry :=
  (b.find? (fun p => p.1 == k)).map (fun p => p.2)

/-- Store a value under a key, overwriting any previous value. -/
def bucketInsert (b : Bucket) (k : String) (v : Entry) : Bucket :=
  (k, v) :: b.filter (fun p => !(p.1 == k))

/-- Remove a key. -/
def bucketErase (b : Bucket) (k : String) : Bucket :=
  b.filter (fun p => !(p.1 == k))

/-- Look up a role in the `BANBOORU_PUBKEY_ROLE_KV` store. -/
def kvGet (kv : List (String × String)) (k : String) : Option String :=
  (kv.find? (fun p => p.1 == k)).map (fun p => p.2)

/-- Modelled from the spec: the blob store's conditional write (spec section
6, and the source comment at `putFile`: R2 checks the received data against
the `sha256` option and the write fails when it differs, which the handler
observes as a missing object descriptor). On success it returns the stored
object's descriptor, whose checksum field is filled when the store records
one (`r2Records`), and the updated bucket. -/
def r2Put (o : Oracles) (b : Bucket) (k : String) (body : Bytes)
    (sha256hex : String) (contentType : Option String) (cacheControl : Option String) :
    Option (R2ObjectData × Bucket) :=
  if hexDecode sha256hex == some (sha256 body) then
    let obj : R2ObjectData :=
      { key := k, body := body, contentType := contentType, cacheControl := cacheControl,
        size := body.length,
        sha256Checksum := if o.r2Records then some (sha256 body) else none }
    some (obj, bucketInsert b k (.obj obj))
  else none

/-! ## Requests, responses, outcomes -/

/-- The Authorization header as the token codec sees it: absent, present but
undecodable, or decoding to a candidate event. -/
inductive AuthHeader
  | missing
  | malformed
  | token (ev : NostrEvent)
deriving DecidableEq, Repr

/-- The parts of an incoming request the handlers read. `hashParam` is the
router's `:hash` binding; `url` is the full request URL the NIP-98 `u` tag
is checked against. The `delegationHeader` field is the
`x-nip-26-delegation` header: absent, present but invalid JSON, or parsing
to a `Delegation`. -/
structure Req where
  method : String
  url : String
  hashParam : String
  auth : AuthHeader
  body : Option Bytes
  contentType : Option String
  host : Option String
  delegationHeader : Option (Option Delegation)
deriving Repr

/-- A response: the status and, for a successful GET, the returned entry. -/
structure Response where
  status : Nat
  body : Option Entry := none
deriving DecidableEq, Repr

/-- An access to an external collaborator, recorded in order: role-store
reads and bucket head/get/put/delete calls. -/
inductive TraceEv
  | kvGet (k : String)
  | bHead (k : String)
  | bGet (k : String)
  | bPut (k : String)
  | bDelete (k : String)
deriving DecidableEq, Repr

/-- The deferred provenance job handed to `workerContext.waitUntil`: the base
URL, the freshly stored object's descriptor, and the delegation parsed from
the request header. -/
structure MetaTask where
  baseUrl : String
  obj : R2ObjectData
  deleg : Option Delegation
deriving DecidableEq, Repr

/-- What handling a request produces: the client-visible response, the
bucket afterwards, the collaborator accesses made, and the provenance job
scheduled but not yet run. -/
structure Outcome where
  resp : Response
  bucket : Bucket
  trace : List TraceEv
  task : Option MetaTask := none
deriving DecidableEq, Repr

/-- The worker environment: the bucket, the pubkey-to-role KV store and the
service signing key. -/
structure Sys where
  bucket : Bucket
  roleKV : List (String × String)
  privateKey : String
deriving Repr

/-! ## Handlers, translated from src/unnamed/part_001 -/

/-- `get_auth_event`: decode the Authorization header and validate the
NIP-98 binding, yielding the event or an error message (source lines
20-39). -/
def get_auth_event (o : Oracles) (req : Req) : Except String NostrEvent :=
  match req.auth with
  | .missing => .error "missing Authorization header"
  | .malformed => .error "Failed NIP-98 authentication."
  | .token ev =>
    if validateEvent o ev req.url req.method then .ok ev
    else .error "Invalid nostr event."

/-- The authenticated-user record the `auth` middleware builds: the token's
pubkey and the role fetched from `BANBOORU_PUBKEY_ROLE_KV` (source lines
70-85). -/
structure UserInfo where
  id : String
  role : Option String
deriving DecidableEq, Repr

/-- The `restricted` middleware's role gate:
`ctx.user.role && roles.includes(ctx.user.role)` (source lines 120-128). -/
def roleAllowed (u : UserInfo) (roles : List String) : Bool :=
  match u.role with
  | some r => roles.contains r
  | none => false

/-- The `auth` middleware: run `get_auth_event`; on error answer 401,
otherwise build the user record, reading the role store. -/
def authUser (o : Oracles) (sys : Sys) (req : Req) :
    Except Response (NostrEvent × UserInfo × List TraceEv) :=
  match get_auth_event o req with
  | .error _ => .error { status := 401 }
  | .ok ev =>
    .ok (ev, { id := ev.pubkey, role := kvGet sys.roleKV ev.pubkey }, [.kvGet ev.pubkey])

/-- The `HEAD@/file/:hash` handler (source lines 150-160). -/
def headFile (sys : Sys) (hash : String) : Outcome :=
  if !isHex64 hash then
    { resp := { status := 404 }, bucket := sys.bucket, trace := [] }
  else
    match bucketFind sys.bucket hash with
    | none => { resp := { status := 404 }, bucket := sys.bucket, trace := [.bHead hash] }
    | some _ => { resp := { status := 200 }, bucket := sys.bucket, trace := [.bHead hash] }

/-- The `GET@/file/:hash` handler (source lines 161-171): the 200 response
carries the stored entry as its body. -/
def getFile (sys : Sys) (hash : String) : Outcome :=
  if !isHex64 hash then
    { resp := { status := 404 }, bucket := sys.bucket, trace := [] }
  else
    match bucketFind sys.bucket hash with
    | none => { resp := { status := 404 }, bucket := sys.bucket, trace := [.bGet hash] }
    | some e =>
      { resp := { status := 200, body := some e }, bucket := sys.bucket, trace := [.bGet hash] }

/-- The payload tag lookup
`authEvent.tags.find(t => t[0] === 'payload')` in `putFile`. -/
def findPayload (ev : NostrEvent) : Option (List String) :=
  ev.tags.find? (fun t => t.head? == some "payload")

/-- JavaScript truthiness of `payloadTag && payloadTag[1]`: the tag exists
and has a nonempty value. -/
def payloadTruthy (t : Option (List String)) : Bool :=
  match t with
  | some tag => match tag.get? 1 with
    | some s => s != ""
    | none => false
  | none => false

/-- The value of the payload tag, empty when absent. -/
def payloadValue (t : Option (List String)) : String :=
  match t with
  | some tag => tag.getD 1 ""
  | none => ""

/-- The `putFile` pre-check
`payloadTag && payloadTag[1] && payloadTag[1] != params.hash`: a truthy
payload tag that differs, as an exact string, from the URL path hash. -/
def payloadTagMismatch (t : Option (List String)) (hash : String) : Bool :=
  payloadTruthy t && payloadValue t != hash

/-- JavaScript `request.headers.get('content-type') || undefined`: an empty
header value collapses to undefined. -/
def orUndefined (s : Option String) : Option String :=
  match s with
  | some v => if v != "" then some v else none
  | none => none

/-- The `PUT@/file/:hash` handler body (source lines 172-219), run after the
`restricted(["admin", "user"], ...)` gate: hash-shape check, body check,
payload-tag pre-check against the path hash, existence check (409),
conditional R2 write (a checksum-mismatch write yields no object: 401 with a
truthy payload tag, 400 without), then parsing the `x-nip-26-delegation`
header and scheduling `handleMetadada` via `waitUntil` before answering 204.
Invalid delegation JSON throws inside the try block after the object was
stored, so it yields 500 with the object retained. -/
def putFile (o : Oracles) (sys : Sys) (req : Req) (authEvent : NostrEvent)
    (hash : String) : Outcome :=
  if !isHex64 hash then
    { resp := { status := 400 }, bucket := sys.bucket, trace := [] }
  else
    match req.body with
    | none => { resp := { status := 400 }, bucket := sys.bucket, trace := [] }
    | some bs =>
      let payloadTag := findPayload authEvent
      if payloadTagMismatch payloadTag hash then
        { resp := { status := 401 }, bucket := sys.bucket, trace := [] }
      else
        match bucketFind sys.bucket hash with
        | some _ =>
          { resp := { status := 409 }, bucket := sys.bucket, trace := [.bHead hash] }
        | none =>
          match r2Put o sys.bucket hash bs hash (orUndefined req.contentType)
              (some "public, max-age=31536000, immutable") with
          | none =>
            if payloadTruthy payloadTag then
              { resp := { status := 401 }, bucket := sys.bucket,
                trace := [.bHead hash, .bPut hash] }
            else
              { resp := { status := 400 }, bucket := sys.bucket,
                trace := [.bHead hash, .bPut hash] }
          | some (object, bucket1) =>
            match req.delegationHeader with
            | some none =>
              { resp := { status := 500 }, bucket := bucket1,
                trace := [.bHead hash, .bPut hash] }
            | some (some d) =>
              { resp := { status := 204 }, bucket := bucket1,
                trace := [.bHead hash, .bPut hash],
                task := some { baseUrl := "https://" ++ req.host.getD "null",
                               obj := object, deleg := some d } }
            | none =>
              { resp := { status := 204 }, bucket := bucket1,
                trace := [.bHead hash, .bPut hash],
                task := some { baseUrl := "https://" ++ req.host.getD "null",
                               obj := object, deleg := none } }

/-- `isPublisher` (source lines 131-135). -/
def isPublisher (userId : String) (event : NostrEvent) : Bool :=
  event.pubkey == userId

/-- `isDelegator` (source lines 140-147): the resolved delegator equals the
user; any resolution failure counts as false. -/
def isDelegator (o : Oracles) (userId : String) (event : NostrEvent) : Bool :=
  getDelegator o event == some userId

/-- The `DELETE@/file/:hash` handler body (source lines 220-250), run after
the `restricted(["admin", "user"], ...)` gate. The source reads
`params.hahs` — a misspelling of `params.hash`, which is `undefined`, so the
existence check and the metadata read address the literal keys "undefined"
and "undefined.metadata.json" (JavaScript string coercion); only the first
of the two final deletes uses the real hash. -/
def deleteFile (o : Oracles) (sys : Sys) (user : UserInfo) (hash : String) : Outcome :=
  if !isHex64 hash then
    { resp := { status := 400 }, bucket := sys.bucket, trace := [] }
  else
    match bucketFind sys.bucket "undefined" with
    | none => { resp := { status := 404 }, bucket := sys.bucket, trace := [.bGet "undefined"] }
    | some _ =>
      let metadata : Option NostrEvent :=
        match bucketFind sys.bucket "undefined.metadata.json" with
        | some (.doc ev) => some ev
        | _ => none
      if user.role == some "admin"
          || (match metadata with
              | some mev => isPublisher user.id mev || isDelegator o user.id mev
              | none => false) then
        { resp := { status := 204 },
          bucket := bucketErase (bucketErase sys.bucket hash) "undefined.metadata.json",
          trace := [.bGet "undefined", .bGet "undefined.metadata.json",
                    .bDelete hash, .bDelete "undefined.metadata.json"] }
      else
        { resp := { status := 403 }, bucket := sys.bucket,
          trace := [.bGet "undefined", .bGet "undefined.metadata.json"] }

/-- The tags `handleMetadada` (source lines 94-115) pushes onto the blank
kind-1063 event: the canonical URL, the media type (with the
octet-stream default), the hex checksum, the size, and — when a parsed
delegation was passed along — the delegation tag copied verbatim. -/
def metadataTags (t : MetaTask) (ck : Bytes) : List (List String) :=
  [["url", t.baseUrl ++ "/" ++ t.obj.key],
   ["m", match t.obj.contentType with
         | some c => if c != "" then c else "application/octet-stream"
         | none => "application/octet-stream"],
   ["x", bytesToHex ck],
   ["size", toString t.obj.size]]
  ++ (match t.deleg with
      | some d => [["delegation", d.from_, d.cond, d.sig]]
      | none => [])

/-- The signed kind-1063 event `handleMetadada` builds: the blank event with
the metadata tags pushed, finished with the service key. -/
def metadataEvent (o : Oracles) (privateKey : String) (t : MetaTask) (ck : Bytes) : NostrEvent :=
  finishEvent o { getBlankEvent 1063 with tags := metadataTags t ck } privateKey

/-- `handleMetadada` (source lines 94-115): build the kind-1063 file
metadata event from the stored object's recorded checksum, media type, size
and canonical URL, sign it with the service key and store it as the
`<key>.metadata.json` sidecar; a missing sha256 checksum is an error
(a rejected promise under `waitUntil`, invisible to the client). -/
def handleMetadada (o : Oracles) (privateKey : String) (b : Bucket) (t : MetaTask) :
    Except String (Bucket × List TraceEv) :=
  match t.obj.sha256Checksum with
  | none => .error "Failed to build file metadata: missing sha256 checksum."
  | some ck =>
    .ok (bucketInsert b (t.obj.key ++ ".metadata.json") (.doc (metadataEvent o privateKey t ck)),
         [.bPut (t.obj.key ++ ".metadata.json")])

/-- The router plus middleware chain (source lines 149-269): HEAD and GET go
straight to their handlers; PUT and DELETE run `auth` then the
`restricted(["admin", "user"], ...)` gate (403 on a missing or disallowed
role) before the handler body; other methods fall through to 404. -/
def handleRequest (o : Oracles) (sys : Sys) (req : Req) : Outcome :=
  if req.method == "HEAD" then headFile sys req.hashParam
  else if req.method == "GET" then getFile sys req.hashParam
  else if req.method == "PUT" then
    match authUser o sys req with
    | .error r => { resp := r, bucket := sys.bucket, trace := [] }
    | .ok (ev, u, tr) =>
      if roleAllowed u ["admin", "user"] then
        let out := putFile o sys req ev req.hashParam
        { out with trace := tr ++ out.trace }
      else { resp := { status := 403 }, bucket := sys.bucket, trace := tr }
  else if req.method == "DELETE" then
    match authUser o sys req with
    | .error r => { resp := r, bucket := sys.bucket, trace := [] }
    | .ok (_, u, tr) =>
      if roleAllowed u ["admin", "user"] then
        let out := deleteFile o sys u req.hashParam
        { out with trace := tr ++ out.trace }
      else { resp := { status := 403 }, bucket := sys.bucket, trace := tr }
  else { resp := { status := 404 }, bucket := sys.bucket, trace := [] }

/-- Handle a request and then run the provenance job `waitUntil` kept alive,
as the platform does after the response has gone out: a failing job changes
nothing, a successful one writes the sidecar. The client-visible response is
the one `handleRequest` already fixed. -/
def handleRequestAndProvenance (o : Oracles) (sys : Sys) (req : Req) : Outcome :=
  let out := handleRequest o sys req
  match out.task with
  | none => out
  | some t =>
    match handleMetadada o sys.privateKey out.bucket t with
    | .ok (b1, tr) => { resp := out.resp, bucket := b1, trace := out.trace ++ tr, task := none }
    | .error _ => { resp := out.resp, bucket := out.bucket, trace := out.trace, task := none }

/-! ## Concrete fixtures for witnesses and counterexamples -/

/-- Concrete oracles for evaluating the model: every signature and
delegation verifies, keys derive by prefixing, the store records
checksums. -/
def testOracles : Oracles :=
  { credOk := fun _ => true, delegValid := fun _ => true,
    getPublicKey := fun s => "pk-" ++ s, sign := fun _ _ => "service-sig",
    r2Records := true }

/-- A well-formed 64-hex hash that is not the SHA-256 of any fixture body. -/
def hashA : String :=
  "aaaaaaaaaaaaaaaaaaaaaaaaaaaaaaaaaaaaaaaaaaaaaaaaaaaaaaaaaaaaaaaa"

/-- Lowercase hex SHA-256 of the empty byte string. -/
def emptySha : String :=
  "e3b0c44298fc1c149afbf4c8996fb92427ae41e4649b934ca495991b7852b855"

/-- Uppercase variant of `emptySha`. -/
def emptyShaUpper : String :=
  "E3B0C44298FC1C149AFBF4C8996FB92427AE41E4649B934CA495991B7852B855"

/-- A NIP-98 auth event bound to the given method and URL, with extra tags. -/
def mkAuthEvent (pk method url : String) (extra : List (List String)) : NostrEvent :=
  { pubkey := pk, kind := 27235, created_at := 0,
    tags := [["u", url], ["method", method]] ++ extra, content := "", sig := "sig-" ++ pk }

/-- A stored fixture object under `hashA`. -/
def objA : R2ObjectData :=
  { key := hashA, body := [1, 2, 3], contentType := some "text/plain",
    cacheControl := some "public, max-age=31536000, immutable",
    size := 3, sha256Checksum := some (sha256 [1, 2, 3]) }

/-- A fixture metadata sidecar event recording "publisherpk" as publisher. -/
def metaA : NostrEvent :=
  { pubkey := "publisherpk", kind := 1063, created_at := 0,
    tags := [["url", "https://example.com/" ++ hashA], ["m", "text/plain"],
             ["x", bytesToHex (sha256 [1, 2, 3])], ["size", "3"]],
    content := "", sig := "meta-sig" }

/-- A system whose bucket holds the fixture object and its sidecar, with an
admin, a user and a banned pubkey in the role store. -/
def sysA : Sys :=
  { bucket := [(hashA, .obj objA), (hashA ++ ".metadata.json", .doc metaA)],
    roleKV := [("adminpk", "admin"), ("userpk", "user"), ("bannedpk", "banned")],
    privateKey := "service-key" }

/-- A system with an empty bucket and the same role store. -/
def sysEmpty : Sys :=
  { bucket := [], roleKV := sysA.roleKV, privateKey := "service-key" }

/-- A request fixture: the URL is the canonical file URL for the path hash. -/
def mkReq (method hash : String) (auth : AuthHeader) (body : Option Bytes)
    (deleg : Option (Option Delegation)) : Req :=
  { method := method, url := "https://example.com/file/" ++ hash, hashParam := hash,
    auth := auth, body := body, contentType := some "text/plain",
    host := some "example.com", delegationHeader := deleg }

/-! ## Helper lemmas -/

/-- Inserting under a key makes that key's lookup return the new value. -/
theorem bucketFind_insert_self (b : Bucket) (k : String) (v : Entry) :
    bucketFind (bucketInsert b k v) k = some v := by
  simp [bucketFind, bucketInsert]

/-- Filtering out one key leaves lookups of other keys unchanged. -/
theorem find_filter_ne (b : Bucket) (k k2 : String) (h : ¬ k2 = k) :
    List.find? (fun p => p.1 == k2) (b.filter (fun p => !(p.1 == k)))
      = List.find? (fun p => p.1 == k2) b := by
  induction b with
  | nil => rfl
  | cons hd tl ih =>
    cases hbk : (hd.1 == k) with
    | true =>
      have hb2 : (hd.1 == k2) = false := by
        rw [beq_eq_false_iff_ne, eq_of_beq hbk]
        exact fun hc => h hc.symm
      simp [List.filter_cons, List.find?_cons, hbk, hb2, ih]
    | false =>
      cases hbk2 : (hd.1 == k2) with
      | true => simp [List.filter_cons, List.find?_cons, hbk, hbk2]
      | false => simp [List.filter_cons, List.find?_cons, hbk, hbk2, ih]

/-- Inserting under one key leaves lookups of other keys unchanged. -/
theorem bucketFind_insert_ne (b : Bucket) (k k2 : String) (v : Entry) (h : ¬ k2 = k) :
    bucketFind (bucketInsert b k v) k2 = bucketFind b k2 := by
  simp only [bucketFind, bucketInsert, List.find?]
  have : (k == k2) = false := by
    simp; exact fun hc => h hc.symm
  simp [this, find_filter_ne b k k2 h]

/-- A key with the sidecar suffix appended never equals the key itself. -/
theorem metadata_key_ne (s : String) : ¬ (s ++ ".metadata.json" = s) := by
  intro h
  have h2 := congrArg String.length h
  rw [String.length_append] at h2
  have h3 : ".metadata.json".length = 14 := rfl
  rw [h3] at h2
  omega

/-- Every character `hexDigit` produces is a lowercase hex digit. -/
theorem hexDigit_lower (n : Nat) : isLowerHexChar (hexDigit n) = true := by
  unfold hexDigit
  split <;> decide

/-- `bytesToHex` produces only lowercase hex digits. -/
theorem bytesToHex_lower (l : Bytes) : (bytesToHex l).data.all isLowerHexChar = true := by
  unfold bytesToHex
  induction l with
  | nil => rfl
  | cons b t ih =>
    simp only [List.map_cons, List.flatten_cons, List.all_append]
    simp only [bytesToHex] at ih
    simp [ih, byteToHex, hexDigit_lower]

/-- The two-element role list admits exactly the two role strings. -/
theorem roleAllowed_pair (u : UserInfo) :
    roleAllowed u ["admin", "user"] = true ↔ u.role = some "admin" ∨ u.role = some "user" := by
  unfold roleAllowed
  cases h : u.role with
  | none => simp
  | some r => simp

/-- `putFile` never answers 403: the only 403 comes from the role gate. -/
theorem putFile_status_ne_403 (o : Oracles) (sys : Sys) (req : Req) (ev : NostrEvent)
    (hash : String) : (putFile o sys req ev hash).resp.status ≠ 403 := by
  unfold putFile
  repeat' split
  all_goals intro hc
  all_goals simp only [apply_ite (fun out : Outcome => out.resp),
    apply_ite (fun r : Response => r.status)] at hc
  all_goals (repeat' split at hc)
  all_goals simp at hc

/-- With a PUT method, a token that validates, and a permitted role,
`handleRequest` runs `putFile` after the role-store read. -/
theorem handleRequest_put_run (o : Oracles) (sys : Sys) (req : Req) (ev : NostrEvent)
    (hm : req.method = "PUT") (ha : req.auth = .token ev)
    (hv : validateEvent o ev req.url req.method = true)
    (hr : roleAllowed { id := ev.pubkey, role := kvGet sys.roleKV ev.pubkey }
            ["admin", "user"] = true) :
    handleRequest o sys req
      = { putFile o sys req ev req.hashParam with
          trace := TraceEv.kvGet ev.pubkey :: (putFile o sys req ev req.hashParam).trace } := by
  unfold handleRequest authUser get_auth_event
  rw [ha]
  rw [hm] at hv
  simp [hm, hv, hr]

/-- With a PUT method and a valid token but a missing or disallowed role,
`handleRequest` answers 403 after only the role-store read. -/
theorem handleRequest_put_denied (o : Oracles) (sys : Sys) (req : Req) (ev : NostrEvent)
    (hm : req.method = "PUT") (ha : req.auth = .token ev)
    (hv : validateEvent o ev req.url req.method = true)
    (hr : roleAllowed { id := ev.pubkey, role := kvGet sys.roleKV ev.pubkey }
            ["admin", "user"] = false) :
    handleRequest o sys req
      = { resp := { status := 403 }, bucket := sys.bucket,
          trace := [TraceEv.kvGet ev.pubkey] } := by
  unfold handleRequest authUser get_auth_event
  rw [ha]
  rw [hm] at hv
  simp [hm, hv, hr]

/-- With a DELETE method, a token that validates, and a permitted role,
`handleRequest` runs `deleteFile` after the role-store read. -/
theorem handleRequest_delete_run (o : Oracles) (sys : Sys) (req : Req) (ev : NostrEvent)
    (hm : req.method = "DELETE") (ha : req.auth = .token ev)
    (hv : validateEvent o ev req.url req.method = true)
    (hr : roleAllowed { id := ev.pubkey, role := kvGet sys.roleKV ev.pubkey }
            ["admin", "user"] = true) :
    handleRequest o sys req
      = { deleteFile o sys { id := ev.pubkey, role := kvGet sys.roleKV ev.pubkey } req.hashParam with
          trace := TraceEv.kvGet ev.pubkey
            :: (deleteFile o sys { id := ev.pubkey, role := kvGet sys.roleKV ev.pubkey }
                  req.hashParam).trace } := by
  unfold handleRequest authUser get_auth_event
  rw [ha]
  rw [hm] at hv
  simp [hm, hv, hr]

/-- On PUT or DELETE, a token that fails validation yields 401 with no
collaborator access at all. -/
theorem handleRequest_auth_fail (o : Oracles) (sys : Sys) (req : Req) (ev : NostrEvent)
    (hm : req.method = "PUT" ∨ req.method = "DELETE") (ha : req.auth = .token ev)
    (hv : validateEvent o ev req.url req.method = false) :
    handleRequest o sys req
      = { resp := { status := 401 }, bucket := sys.bucket, trace := [] } := by
  unfold handleRequest authUser get_auth_event
  rw [ha]
  rcases hm with hm | hm <;> (rw [hm] at hv; simp [hm, hv])

/-- The descriptor `r2Put` returns for a successful write. -/
def putObj (o : Oracles) (req : Req) (hash : String) (bs : Bytes) : R2ObjectData :=
  { key := hash, body := bs, contentType := orUndefined req.contentType,
    cacheControl := some "public, max-age=31536000, immutable", size := bs.length,
    sha256Checksum := if o.r2Records then some (sha256 bs) else none }

/-- The happy path of `putFile` with no delegation header: valid hash, body
present, payload pre-check passed, object absent, checksum matching — store
the object, schedule the provenance job, answer 204. -/
theorem putFile_success_none (o : Oracles) (sys : Sys) (req : Req) (ev : NostrEvent)
    (bs : Bytes)
    (hhex : isHex64 req.hashParam = true) (hbody : req.body = some bs)
    (hpm : payloadTagMismatch (findPayload ev) req.hashParam = false)
    (habs : bucketFind sys.bucket req.hashParam = none)
    (hint : hexDecode req.hashParam = some (sha256 bs))
    (hdel : req.delegationHeader = none) :
    putFile o sys req ev req.hashParam
      = { resp := { status := 204 },
          bucket := bucketInsert sys.bucket req.hashParam (.obj (putObj o req req.hashParam bs)),
          trace := [.bHead req.hashParam, .bPut req.hashParam],
          task := some { baseUrl := "https://" ++ req.host.getD "null",
                         obj := putObj o req req.hashParam bs, deleg := none } } := by
  unfold putFile r2Put
  simp [hhex, hbody, hpm, habs, hint, hdel, putObj]

/-- The happy path of `putFile` with a well-formed delegation header. -/
theorem putFile_success_some (o : Oracles) (sys : Sys) (req : Req) (ev : NostrEvent)
    (bs : Bytes) (d : Delegation)
    (hhex : isHex64 req.hashParam = true) (hbody : req.body = some bs)
    (hpm : payloadTagMismatch (findPayload ev) req.hashParam = false)
    (habs : bucketFind sys.bucket req.hashParam = none)
    (hint : hexDecode req.hashParam = some (sha256 bs))
    (hdel : req.delegationHeader = some (some d)) :
    putFile o sys req ev req.hashParam
      = { resp := { status := 204 },
          bucket := bucketInsert sys.bucket req.hashParam (.obj (putObj o req req.hashParam bs)),
          trace := [.bHead req.hashParam, .bPut req.hashParam],
          task := some { baseUrl := "https://" ++ req.host.getD "null",
                         obj := putObj o req req.hashParam bs, deleg := some d } } := by
  unfold putFile r2Put
  simp [hhex, hbody, hpm, habs, hint, hdel, putObj]

/-- `putFile` when the body's checksum does not match the path hash: the
write fails, nothing is stored, and the status is 401 with a truthy payload
tag and 400 without. -/
theorem putFile_checksum_mismatch (o : Oracles) (sys : Sys) (req : Req) (ev : NostrEvent)
    (bs : Bytes)
    (hhex : isHex64 req.hashParam = true) (hbody : req.body = some bs)
    (hpm : payloadTagMismatch (findPayload ev) req.hashParam = false)
    (habs : bucketFind sys.bucket req.hashParam = none)
    (hint : ¬ hexDecode req.hashParam = some (sha256 bs)) :
    putFile o sys req ev req.hashParam
      = { resp := { status := if payloadTruthy (findPayload ev) then 401 else 400 },
          bucket := sys.bucket,
          trace := [.bHead req.hashParam, .bPut req.hashParam] } := by
  unfold putFile r2Put
  have hbeq : (hexDecode req.hashParam == some (sha256 bs)) = false := by
    simpa using hint
  simp [hhex, hbody, hpm, habs, hbeq]
  split <;> simp

/-- `putFile` when a truthy payload tag differs from the path hash: 401
before any bucket access. -/
theorem putFile_payload_mismatch (o : Oracles) (sys : Sys) (req : Req) (ev : NostrEvent)
    (hhex : isHex64 req.hashParam = true)
    (hpm : payloadTagMismatch (findPayload ev) req.hashParam = true) :
    putFile o sys req ev req.hashParam
      = match req.body with
        | none => { resp := { status := 400 }, bucket := sys.bucket, trace := [] }
        | some _ => { resp := { status := 401 }, bucket := sys.bucket, trace := [] } := by
  unfold putFile
  cases req.body <;> simp [hhex, hpm]

/-- `putFile` when the object already exists: 409 after only the existence
check. -/
theorem putFile_conflict (o : Oracles) (sys : Sys) (req : Req) (ev : NostrEvent)
    (bs : Bytes) (e : Entry)
    (hhex : isHex64 req.hashParam = true) (hbody : req.body = some bs)
    (hpm : payloadTagMismatch (findPayload ev) req.hashParam = false)
    (hex : bucketFind sys.bucket req.hashParam = some e) :
    putFile o sys req ev req.hashParam
      = { resp := { status := 409 }, bucket := sys.bucket,
          trace := [.bHead req.hashParam] } := by
  unfold putFile
  simp [hhex, hbody, hpm, hex]

/-- `putFile` when the write succeeded but the `x-nip-26-delegation` header
does not parse: `JSON.parse` throws inside the try block, after the object
was stored, so the client sees 500 with the object retained and no
provenance job scheduled. -/
theorem putFile_deleg_malformed (o : Oracles) (sys : Sys) (req : Req) (ev : NostrEvent)
    (bs : Bytes)
    (hhex : isHex64 req.hashParam = true) (hbody : req.body = some bs)
    (hpm : payloadTagMismatch (findPayload ev) req.hashParam = false)
    (habs : bucketFind sys.bucket req.hashParam = none)
    (hint : hexDecode req.hashParam = some (sha256 bs))
    (hdel : req.delegationHeader = some none) :
    putFile o sys req ev req.hashParam
      = { resp := { status := 500 },
          bucket := bucketInsert sys.bucket req.hashParam (.obj (putObj o req req.hashParam bs)),
          trace := [.bHead req.hashParam, .bPut req.hashParam] } := by
  unfold putFile r2Put
  simp [hhex, hbody, hpm, habs, hint, hdel, putObj]

/-- The provenance job a successful PUT schedules. -/
def successTask (o : Oracles) (req : Req) (bs : Bytes) (d : Option Delegation) : MetaTask :=
  { baseUrl := "https://" ++ req.host.getD "null",
    obj := putObj o req req.hashParam bs, deleg := d }

/-- A fully successful authorized PUT, before the provenance job runs:
object stored, 204, the job scheduled. `dOpt` abstracts over an absent or a
well-formed delegation header. -/
theorem handleRequest_put_204 (o : Oracles) (sys : Sys) (req : Req) (ev : NostrEvent)
    (bs : Bytes) (dOpt : Option Delegation)
    (hm : req.method = "PUT") (ha : req.auth = .token ev)
    (hv : validateEvent o ev req.url req.method = true)
    (hra : roleAllowed { id := ev.pubkey, role := kvGet sys.roleKV ev.pubkey }
             ["admin", "user"] = true)
    (hhex : isHex64 req.hashParam = true) (hbody : req.body = some bs)
    (hpm : payloadTagMismatch (findPayload ev) req.hashParam = false)
    (habs : bucketFind sys.bucket req.hashParam = none)
    (hint : hexDecode req.hashParam = some (sha256 bs))
    (hdel : req.delegationHeader = Option.map some dOpt) :
    handleRequest o sys req
      = { resp := { status := 204 },
          bucket := bucketInsert sys.bucket req.hashParam (.obj (putObj o req req.hashParam bs)),
          trace := [.kvGet ev.pubkey, .bHead req.hashParam, .bPut req.hashParam],
          task := some (successTask o req bs dOpt) } := by
  rw [handleRequest_put_run o sys req ev hm ha hv hra]
  cases dOpt with
  | none =>
    rw [putFile_success_none o sys req ev bs hhex hbody hpm habs hint (by simpa using hdel)]
    rfl
  | some d =>
    rw [putFile_success_some o sys req ev bs d hhex hbody hpm habs hint (by simpa using hdel)]
    rfl

/-- A fully successful authorized PUT followed by the provenance job, when
the blob store records checksums: the sidecar is written. -/
theorem full_put_success (o : Oracles) (sys : Sys) (req : Req) (ev : NostrEvent)
    (bs : Bytes) (dOpt : Option Delegation)
    (hm : req.method = "PUT") (ha : req.auth = .token ev)
    (hv : validateEvent o ev req.url req.method = true)
    (hra : roleAllowed { id := ev.pubkey, role := kvGet sys.roleKV ev.pubkey }
             ["admin", "user"] = true)
    (hhex : isHex64 req.hashParam = true) (hbody : req.body = some bs)
    (hpm : payloadTagMismatch (findPayload ev) req.hashParam = false)
    (habs : bucketFind sys.bucket req.hashParam = none)
    (hint : hexDecode req.hashParam = some (sha256 bs))
    (hdel : req.delegationHeader = Option.map some dOpt)
    (hrec : o.r2Records = true) :
    handleRequestAndProvenance o sys req
      = { resp := { status := 204 },
          bucket := bucketInsert
            (bucketInsert sys.bucket req.hashParam (.obj (putObj o req req.hashParam bs)))
            (req.hashParam ++ ".metadata.json")
            (.doc (metadataEvent o sys.privateKey (successTask o req bs dOpt) (sha256 bs))),
          trace := [.kvGet ev.pubkey, .bHead req.hashParam, .bPut req.hashParam,
                    .bPut (req.hashParam ++ ".metadata.json")],
          task := none } := by
  unfold handleRequestAndProvenance
  rw [handleRequest_put_204 o sys req ev bs dOpt hm ha hv hra hhex hbody hpm habs hint hdel]
  simp only [handleMetadada, successTask, putObj, hrec]
  rfl

/-- A fully successful authorized PUT whose blob store does not record a
checksum: the provenance job fails, the sidecar write never happens, yet the
client still got its 204. -/
theorem full_put_no_checksum (o : Oracles) (sys : Sys) (req : Req) (ev : NostrEvent)
    (bs : Bytes) (dOpt : Option Delegation)
    (hm : req.method = "PUT") (ha : req.auth = .token ev)
    (hv : validateEvent o ev req.url req.method = true)
    (hra : roleAllowed { id := ev.pubkey, role := kvGet sys.roleKV ev.pubkey }
             ["admin", "user"] = true)
    (hhex : isHex64 req.hashParam = true) (hbody : req.body = some bs)
    (hpm : payloadTagMismatch (findPayload ev) req.hashParam = false)
    (habs : bucketFind sys.bucket req.hashParam = none)
    (hint : hexDecode req.hashParam = some (sha256 bs))
    (hdel : req.delegationHeader = Option.map some dOpt)
    (hrec : o.r2Records = false) :
    handleMetadada o sys.privateKey
        (bucketInsert sys.bucket req.hashParam (.obj (putObj o req req.hashParam bs)))
        (successTask o req bs dOpt)
      = .error "Failed to build file metadata: missing sha256 checksum."
    ∧ handleRequestAndProvenance o sys req
      = { resp := { status := 204 },
          bucket := bucketInsert sys.bucket req.hashParam (.obj (putObj o req req.hashParam bs)),
          trace := [.kvGet ev.pubkey, .bHead req.hashParam, .bPut req.hashParam],
          task := none } := by
  have hmeta : handleMetadada o sys.privateKey
      (bucketInsert sys.bucket req.hashParam (.obj (putObj o req req.hashParam bs)))
      (successTask o req bs dOpt)
      = .error "Failed to build file metadata: missing sha256 checksum." := by
    simp only [handleMetadada, successTask, putObj, hrec]
    rfl
  refine ⟨hmeta, ?_⟩
  unfold handleRequestAndProvenance
  rw [handleRequest_put_204 o sys req ev bs dOpt hm ha hv hra hhex hbody hpm habs hint hdel]
  simp only []
  rw [hmeta]

/-! ## Concrete requests for witnesses and counterexamples -/

/-- A valid user-signed PUT token for the empty body's hash. -/
def evPutOk : NostrEvent :=
  mkAuthEvent "userpk" "PUT" ("https://example.com/file/" ++ emptySha) []

/-- A well-formed authorized PUT of the empty body under its own hash. -/
def reqPutOk : Req := mkReq "PUT" emptySha (.token evPutOk) (some []) none

/-- An admin-signed DELETE token for the stored fixture object. -/
def evDelAdmin : NostrEvent :=
  mkAuthEvent "adminpk" "DELETE" ("https://example.com/file/" ++ hashA) []

/-- An admin DELETE of the stored fixture object. -/
def reqDelAdmin : Req := mkReq "DELETE" hashA (.token evDelAdmin) none none

/-- A user PUT token asserting `hashA` both in the URL and the payload tag,
while the body is empty (its SHA-256 is not `hashA`). -/
def evPutC2 : NostrEvent :=
  mkAuthEvent "userpk" "PUT" ("https://example.com/file/" ++ hashA) [["payload", hashA]]

/-- The PUT request for `evPutC2`: body hash mismatch with a payload tag. -/
def reqPutC2 : Req := mkReq "PUT" hashA (.token evPutC2) (some []) none

/-- A token minted for a PUT on a different URL. -/
def evMismatched : NostrEvent := mkAuthEvent "userpk" "PUT" "https://other.example/file" []

/-- A GET request bearing the mismatched token. -/
def reqGetBadTok : Req := mkReq "GET" hashA (.token evMismatched) none none

/-- A user PUT token whose URL carries the malformed path "not-a-hash". -/
def evPutBadHash : NostrEvent :=
  mkAuthEvent "userpk" "PUT" "https://example.com/file/not-a-hash" []

/-- A PUT whose path parameter is not a hash, with a valid token. -/
def reqPutBadHash : Req := mkReq "PUT" "not-a-hash" (.token evPutBadHash) (some []) none

/-- A banned-signer PUT token for the empty body's hash. -/
def evPutBanned : NostrEvent :=
  mkAuthEvent "bannedpk" "PUT" ("https://example.com/file/" ++ emptySha) []

/-- The PUT request for `evPutBanned`. -/
def reqPutBanned : Req := mkReq "PUT" emptySha (.token evPutBanned) (some []) none

/-- A user PUT token for the uppercase path hash whose payload tag holds the
lowercase hex SHA-256 of the (empty) body. -/
def evPutC8 : NostrEvent :=
  mkAuthEvent "userpk" "PUT" ("https://example.com/file/" ++ emptyShaUpper)
    [["payload", emptySha]]

/-- The PUT request for `evPutC8`: uppercase path hash, lowercase payload
tag equal to the body's lowercase hex SHA-256. -/
def reqPutC8 : Req := mkReq "PUT" emptyShaUpper (.token evPutC8) (some []) none

/-- A delegation forged out of thin air in a request header. -/
def dForged : Delegation :=
  { from_ := "forged-delegator-pubkey", cond := "kind=1063", sig := "forged-signature" }

/-- A well-formed authorized PUT carrying the forged delegation header. -/
def reqPutDeleg : Req :=
  mkReq "PUT" emptySha (.token evPutOk) (some []) (some (some dForged))

/-- Oracles whose blob store records no checksum. -/
def oraclesNoCk : Oracles := { testOracles with r2Records := false }

/-- Oracles that reject every delegation token. -/
def oraclesNoDeleg : Oracles := { testOracles with delegValid := fun _ => false }

/-! ## The claims -/

/-- C1: the claim says a DELETE by an admin (or publisher, or delegator) of
an existing object succeeds with 204. Evaluating the handler at exactly that
input — admin role, valid bound token, object and sidecar present — returns
404, because `deleteFile` reads `params.hahs` (a misspelling of
`params.hash`, hence `undefined`, coerced to the literal key "undefined")
for its existence check, which never finds the object. -/
theorem c1_admin_delete_existing_returns_404 :
    kvGet sysA.roleKV "adminpk" = some "admin"
    ∧ bucketFind sysA.bucket hashA = some (.obj objA)
    ∧ (handleRequest testOracles sysA reqDelAdmin).resp.status = 404 := by
  decide

/-- C3 counterexample: a GET request bearing an Authorization token whose
`u` and `method` tags match neither the request URL nor the method is
answered 404 (object absent), not 401 — HEAD/GET routes never consult the
token, so the claim's "every request" quantifier fails. -/
theorem c3_counterexample :
    uMethodBound evMismatched reqGetBadTok.url reqGetBadTok.method = false
    ∧ (handleRequest testOracles sysEmpty reqGetBadTok).resp.status = 404
    ∧ ¬ (handleRequest testOracles sysEmpty reqGetBadTok).resp.status = 401 := by
  decide

/-- C3 amended: for every PUT or DELETE request bearing a token whose `u`
tag or `method` tag does not match the request's URL or method, the response
is 401 — for every oracle, in particular when the signature check `credOk`
accepts the event, so even a cryptographically valid signature does not
save an unbound token. -/
theorem c3_unbound_token_401 (o : Oracles) (sys : Sys) (req : Req) (ev : NostrEvent)
    (hm : req.method = "PUT" ∨ req.method = "DELETE") (ha : req.auth = .token ev)
    (hbind : uMethodBound ev req.url req.method = false) :
    (handleRequest o sys req).resp.status = 401 := by
  have hv : validateEvent o ev req.url req.method = false := by
    unfold validateEvent
    simp [hbind]
  rw [handleRequest_auth_fail o sys req ev hm ha hv]

/-- C3 witness: the unbound token of `evMismatched`, presented on a PUT,
with an oracle accepting every signature, is rejected 401. -/
theorem c3_unbound_token_401_witness :
    (handleRequest testOracles sysEmpty
      (mkReq "PUT" hashA (.token evMismatched) (some []) none)).resp.status = 401 :=
  c3_unbound_token_401 testOracles sysEmpty
    (mkReq "PUT" hashA (.token evMismatched) (some []) none) evMismatched
    (Or.inl rfl) rfl (by decide)

/-- C4 counterexample: a PUT on path parameter "not-a-hash" with no
Authorization header is answered 401, not 400 — on PUT the authentication
middleware runs before the handler's hash-shape check, so the rejection is
not the claimed 400-before-auth. -/
theorem c4_counterexample :
    isHex64 "not-a-hash" = false
    ∧ (handleRequest testOracles sysEmpty
        (mkReq "PUT" "not-a-hash" .missing (some []) none)).resp.status = 401
    ∧ ¬ (handleRequest testOracles sysEmpty
        (mkReq "PUT" "not-a-hash" .missing (some []) none)).resp.status = 400 := by
  decide

/-- C4 amended: an invalid path parameter is rejected 404 on HEAD/GET
before any collaborator access; on PUT/DELETE the hash check runs only
inside the handler, after token validation and the role-store read: an
authenticated, role-permitted caller gets 400 and the recorded trace shows
exactly the role-store lookup — no blob-store access. -/
theorem c4_invalid_hash (o : Oracles) (sys : Sys) (req : Req)
    (hbad : isHex64 req.hashParam = false) :
    ((req.method = "HEAD" ∨ req.method = "GET") →
       (handleRequest o sys req).resp.status = 404
       ∧ (handleRequest o sys req).trace = [])
    ∧ (∀ ev : NostrEvent, ∀ r : String,
         (req.method = "PUT" ∨ req.method = "DELETE") →
         req.auth = .token ev →
         validateEvent o ev req.url req.method = true →
         kvGet sys.roleKV ev.pubkey = some r → (r = "admin" ∨ r = "user") →
         (handleRequest o sys req).resp.status = 400
         ∧ (handleRequest o sys req).trace = [.kvGet ev.pubkey]) := by
  constructor
  · intro hm
    rcases hm with hm | hm
    · unfold handleRequest headFile
      simp [hm, hbad]
    · unfold handleRequest getFile
      simp [hm, hbad]
  · intro ev r hm ha hv hrole hr
    have hra : roleAllowed { id := ev.pubkey, role := kvGet sys.roleKV ev.pubkey }
        ["admin", "user"] = true := by
      rw [roleAllowed_pair]
      rcases hr with h | h <;> simp [hrole, h]
    rcases hm with hm | hm
    · rw [handleRequest_put_run o sys req ev hm ha hv hra]
      unfold putFile
      simp [hbad]
    · rw [handleRequest_delete_run o sys req ev hm ha hv hra]
      unfold deleteFile
      simp [hbad]

/-- C4 witness: a role-permitted user PUT on "not-a-hash" yields 400 after
exactly one role-store read and no bucket access. -/
theorem c4_invalid_hash_witness :
    (handleRequest testOracles sysEmpty reqPutBadHash).resp.status = 400
    ∧ (handleRequest testOracles sysEmpty reqPutBadHash).trace = [.kvGet "userpk"] :=
  (c4_invalid_hash testOracles sysEmpty reqPutBadHash (by decide)).2
    evPutBadHash "user" (Or.inl rfl) rfl (by decide) (by decide) (Or.inr rfl)

/-- C5: a PUT by any authorized caller (role admin or user, valid bound
token, well-formed hash and body, payload pre-check passed) to a hash whose
object already exists is answered 409, the bucket is unchanged, and no
blob-store write is attempted. -/
theorem c5_second_put_conflict (o : Oracles) (sys : Sys) (req : Req) (ev : NostrEvent)
    (r : String) (e : Entry)
    (hm : req.method = "PUT") (ha : req.auth = .token ev)
    (hv : validateEvent o ev req.url req.method = true)
    (hrole : kvGet sys.roleKV ev.pubkey = some r) (hr : r = "admin" ∨ r = "user")
    (hhex : isHex64 req.hashParam = true)
    (hbody : ∃ bs, req.body = some bs)
    (hpm : payloadTagMismatch (findPayload ev) req.hashParam = false)
    (hex : bucketFind sys.bucket req.hashParam = some e) :
    (handleRequest o sys req).resp.status = 409
    ∧ (handleRequest o sys req).bucket = sys.bucket
    ∧ ∀ k, TraceEv.bPut k ∉ (handleRequest o sys req).trace := by
  obtain ⟨bs, hbody⟩ := hbody
  have hra : roleAllowed { id := ev.pubkey, role := kvGet sys.roleKV ev.pubkey }
      ["admin", "user"] = true := by
    rw [roleAllowed_pair]
    rcases hr with h | h <;> simp [hrole, h]
  rw [handleRequest_put_run o sys req ev hm ha hv hra]
  unfold putFile
  simp [hhex, hbody, hpm, hex]

/-- C5 witness: a second authorized PUT of the fixture object (admin role
this time) is answered 409 with the bucket untouched and no write. -/
theorem c5_second_put_conflict_witness :
    (handleRequest testOracles sysA
        (mkReq "PUT" hashA
          (.token (mkAuthEvent "adminpk" "PUT" ("https://example.com/file/" ++ hashA) []))
          (some [9, 9]) none)).resp.status = 409
    ∧ (handleRequest testOracles sysA
        (mkReq "PUT" hashA
          (.token (mkAuthEvent "adminpk" "PUT" ("https://example.com/file/" ++ hashA) []))
          (some [9, 9]) none)).bucket = sysA.bucket
    ∧ ∀ k, TraceEv.bPut k ∉ (handleRequest testOracles sysA
        (mkReq "PUT" hashA
          (.token (mkAuthEvent "adminpk" "PUT" ("https://example.com/file/" ++ hashA) []))
          (some [9, 9]) none)).trace :=
  c5_second_put_conflict testOracles sysA
    (mkReq "PUT" hashA
      (.token (mkAuthEvent "adminpk" "PUT" ("https://example.com/file/" ++ hashA) []))
      (some [9, 9]) none)
    (mkAuthEvent "adminpk" "PUT" ("https://example.com/file/" ++ hashA) [])
    "admin" (.obj objA)
    rfl rfl (by decide) (by decide) (Or.inl rfl) (by decide) ⟨[9, 9], rfl⟩ (by decide)
    (by decide)

/-- C6: for a PUT with a valid bound token, the request escapes the 403 of
the `restricted(["admin", "user"], ...)` gate exactly when the role store
maps the token's signer to admin or user — a banned or absent role (or any
other value) is answered 403. -/
theorem c6_put_role_gate (o : Oracles) (sys : Sys) (req : Req) (ev : NostrEvent)
    (hm : req.method = "PUT") (ha : req.auth = .token ev)
    (hv : validateEvent o ev req.url req.method = true) :
    ((handleRequest o sys req).resp.status ≠ 403
      ↔ kvGet sys.roleKV ev.pubkey = some "admin"
        ∨ kvGet sys.roleKV ev.pubkey = some "user") := by
  by_cases hra : roleAllowed { id := ev.pubkey, role := kvGet sys.roleKV ev.pubkey }
      ["admin", "user"] = true
  · rw [handleRequest_put_run o sys req ev hm ha hv hra]
    constructor
    · intro _
      exact (roleAllowed_pair _).mp hra
    · intro _
      exact putFile_status_ne_403 o sys req ev req.hashParam
  · have hra2 : roleAllowed { id := ev.pubkey, role := kvGet sys.roleKV ev.pubkey }
        ["admin", "user"] = false := by
      cases h : roleAllowed { id := ev.pubkey, role := kvGet sys.roleKV ev.pubkey }
          ["admin", "user"] with
      | true => exact absurd h hra
      | false => rfl
    rw [handleRequest_put_denied o sys req ev hm ha hv hra2]
    constructor
    · intro h
      exact absurd rfl h
    · intro hor
      exact absurd ((roleAllowed_pair _).mpr hor) hra

/-- C6 witness: the banned signer's PUT resolves the gate to 403 — the
equivalence instantiates to a falsity on both sides. -/
theorem c6_put_role_gate_witness :
    ((handleRequest testOracles sysA reqPutBanned).resp.status ≠ 403
      ↔ kvGet sysA.roleKV "bannedpk" = some "admin"
        ∨ kvGet sysA.roleKV "bannedpk" = some "user") :=
  c6_put_role_gate testOracles sysA reqPutBanned evPutBanned rfl rfl (by decide)

/-- C2 counterexample: an authorized PUT whose body's SHA-256 differs from
the path hash, but whose auth event carries a payload tag equal to the path
hash, is answered 401, not the claimed 400 (the `!object` branch blames the
signed payload tag); no object is stored under the path hash either way. -/
theorem c2_counterexample :
    ¬ hexDecode hashA = some (sha256 ([] : Bytes))
    ∧ (handleRequest testOracles sysEmpty reqPutC2).resp.status = 401
    ∧ ¬ (handleRequest testOracles sysEmpty reqPutC2).resp.status = 400
    ∧ bucketFind (handleRequest testOracles sysEmpty reqPutC2).bucket hashA = none := by
  decide

/-- C2 amended: for an authorized PUT that reaches the storage step, a body
whose SHA-256 differs from the path hash yields a client error — 400 when
the auth event carries no truthy payload tag and 401 when it does — and no
object is stored under the path hash; any object stored under the path hash
has that hash (read case-insensitively) as the SHA-256 of its bytes, and a
204 response implies such an object was stored with the request's body. -/
theorem c2_put_integrity (o : Oracles) (sys : Sys) (req : Req) (ev : NostrEvent)
    (bs : Bytes) (r : String)
    (hm : req.method = "PUT") (ha : req.auth = .token ev)
    (hv : validateEvent o ev req.url req.method = true)
    (hrole : kvGet sys.roleKV ev.pubkey = some r) (hr : r = "admin" ∨ r = "user")
    (hhex : isHex64 req.hashParam = true) (hbody : req.body = some bs)
    (hpm : payloadTagMismatch (findPayload ev) req.hashParam = false)
    (habs : bucketFind sys.bucket req.hashParam = none) :
    (¬ hexDecode req.hashParam = some (sha256 bs) →
       ((handleRequest o sys req).resp.status
          = if payloadTruthy (findPayload ev) then 401 else 400)
       ∧ bucketFind (handleRequest o sys req).bucket req.hashParam = none)
    ∧ (∀ obj : R2ObjectData,
         bucketFind (handleRequest o sys req).bucket req.hashParam = some (.obj obj) →
         hexDecode req.hashParam = some (sha256 obj.body))
    ∧ ((handleRequest o sys req).resp.status = 204 →
         ∃ obj : R2ObjectData,
           bucketFind (handleRequest o sys req).bucket req.hashParam = some (.obj obj)
           ∧ hexDecode req.hashParam = some (sha256 obj.body) ∧ obj.body = bs) := by
  have hra : roleAllowed { id := ev.pubkey, role := kvGet sys.roleKV ev.pubkey }
      ["admin", "user"] = true := by
    rw [roleAllowed_pair]
    rcases hr with h | h <;> simp [hrole, h]
  rw [handleRequest_put_run o sys req ev hm ha hv hra]
  by_cases hint : hexDecode req.hashParam = some (sha256 bs)
  · have stored : ∀ obj : R2ObjectData,
        bucketFind (bucketInsert sys.bucket req.hashParam
          (.obj (putObj o req req.hashParam bs))) req.hashParam = some (.obj obj) →
        hexDecode req.hashParam = some (sha256 obj.body) := by
      intro obj hobj
      rw [bucketFind_insert_self] at hobj
      simp only [Option.some.injEq, Entry.obj.injEq] at hobj
      rw [← hobj]
      simpa [putObj] using hint
    rcases hdl : req.delegationHeader with _ | od
    · rw [putFile_success_none o sys req ev bs hhex hbody hpm habs hint hdl]
      refine ⟨fun h => absurd hint h, stored, fun _ => ?_⟩
      exact ⟨putObj o req req.hashParam bs, bucketFind_insert_self _ _ _,
        by simpa [putObj] using hint, rfl⟩
    · rcases od with _ | dd
      · rw [putFile_deleg_malformed o sys req ev bs hhex hbody hpm habs hint hdl]
        refine ⟨fun h => absurd hint h, stored, fun h => ?_⟩
        simp at h
      · rw [putFile_success_some o sys req ev bs dd hhex hbody hpm habs hint hdl]
        refine ⟨fun h => absurd hint h, stored, fun _ => ?_⟩
        exact ⟨putObj o req req.hashParam bs, bucketFind_insert_self _ _ _,
          by simpa [putObj] using hint, rfl⟩
  · rw [putFile_checksum_mismatch o sys req ev bs hhex hbody hpm habs hint]
    refine ⟨fun _ => ⟨rfl, habs⟩, ?_, ?_⟩
    · intro obj hobj
      rw [habs] at hobj
      cases hobj
    · intro h
      by_cases ht : payloadTruthy (findPayload ev) = true
      · simp [ht] at h
      · simp [ht] at h

/-- C2 witness: the authorized empty-body PUT under the empty body's own
hash succeeds, and the stored object's bytes hash to the path hash. -/
theorem c2_put_integrity_witness :
    ∃ obj : R2ObjectData,
      bucketFind (handleRequest testOracles sysEmpty reqPutOk).bucket emptySha
        = some (.obj obj)
      ∧ hexDecode emptySha = some (sha256 obj.body) ∧ obj.body = [] :=
  (c2_put_integrity testOracles sysEmpty reqPutOk evPutOk [] "user" rfl rfl (by decide)
    (by decide) (Or.inr rfl) (by decide) rfl (by decide) rfl).2.2 (by decide)

/-- C7: after a successful authorized PUT of body `bs` (no delegation
header), a GET of the same hash returns exactly the stored object whose
bytes are `bs`, and the sidecar under `hash ++ ".metadata.json"` is a
kind-1063 event whose `x` tag is `sha256 bs` in lowercase hex, whose `url`,
`size` and `m` tags describe the stored object, signed with the service's
own key. -/
theorem c7_roundtrip (o : Oracles) (sys : Sys) (req : Req) (ev : NostrEvent)
    (bs : Bytes) (r : String)
    (hm : req.method = "PUT") (ha : req.auth = .token ev)
    (hv : validateEvent o ev req.url req.method = true)
    (hrole : kvGet sys.roleKV ev.pubkey = some r) (hr : r = "admin" ∨ r = "user")
    (hhex : isHex64 req.hashParam = true) (hbody : req.body = some bs)
    (hpm : payloadTagMismatch (findPayload ev) req.hashParam = false)
    (habs : bucketFind sys.bucket req.hashParam = none)
    (hint : hexDecode req.hashParam = some (sha256 bs))
    (hdel : req.delegationHeader = none) (hrec : o.r2Records = true) :
    (handleRequestAndProvenance o sys req).resp.status = 204
    ∧ (getFile { bucket := (handleRequestAndProvenance o sys req).bucket,
                 roleKV := sys.roleKV, privateKey := sys.privateKey } req.hashParam).resp
        = { status := 200, body := some (.obj (putObj o req req.hashParam bs)) }
    ∧ (putObj o req req.hashParam bs).body = bs
    ∧ ∃ mev : NostrEvent,
        bucketFind (handleRequestAndProvenance o sys req).bucket
            (req.hashParam ++ ".metadata.json") = some (.doc mev)
        ∧ findTag mev "x" = some ["x", bytesToHex (sha256 bs)]
        ∧ (bytesToHex (sha256 bs)).data.all isLowerHexChar = true
        ∧ findTag mev "url"
            = some ["url", "https://" ++ req.host.getD "null" ++ "/" ++ req.hashParam]
        ∧ findTag mev "size" = some ["size", toString bs.length]
        ∧ (∃ m, findTag mev "m" = some ["m", m])
        ∧ mev.kind = 1063
        ∧ mev.pubkey = o.getPublicKey sys.privateKey
        ∧ mev.sig = o.sign sys.privateKey
            { kind := 1063, created_at := 0, tags := mev.tags, content := "" } := by
  have hra : roleAllowed { id := ev.pubkey, role := kvGet sys.roleKV ev.pubkey }
      ["admin", "user"] = true := by
    rw [roleAllowed_pair]
    rcases hr with h | h <;> simp [hrole, h]
  have hfull := full_put_success o sys req ev bs none hm ha hv hra hhex hbody hpm habs hint
    (by simpa using hdel) hrec
  rw [hfull]
  have hfind : bucketFind
      (bucketInsert
        (bucketInsert sys.bucket req.hashParam (.obj (putObj o req req.hashParam bs)))
        (req.hashParam ++ ".metadata.json")
        (.doc (metadataEvent o sys.privateKey (successTask o req bs none) (sha256 bs))))
      req.hashParam = some (.obj (putObj o req req.hashParam bs)) := by
    rw [bucketFind_insert_ne _ _ _ _ (fun h => metadata_key_ne req.hashParam h.symm),
      bucketFind_insert_self]
  refine ⟨rfl, ?_, rfl, ?_⟩
  · unfold getFile
    simp [hhex, hfind]
  · refine ⟨metadataEvent o sys.privateKey (successTask o req bs none) (sha256 bs),
      bucketFind_insert_self _ _ _, rfl, bytesToHex_lower _, rfl, rfl, ⟨_, rfl⟩, rfl, rfl, rfl⟩

/-- C7 witness: the concrete empty-body round trip — 204, GET returns the
stored object, and the sidecar's `x` tag is the lowercase digest. -/
theorem c7_roundtrip_witness :
    (handleRequestAndProvenance testOracles sysEmpty reqPutOk).resp.status = 204
    ∧ (getFile { bucket := (handleRequestAndProvenance testOracles sysEmpty reqPutOk).bucket,
                 roleKV := sysEmpty.roleKV, privateKey := sysEmpty.privateKey } emptySha).resp
        = { status := 200, body := some (.obj (putObj testOracles reqPutOk emptySha [])) } :=
  ⟨(c7_roundtrip testOracles sysEmpty reqPutOk evPutOk [] "user" rfl rfl (by decide)
      (by decide) (Or.inr rfl) (by decide) rfl (by decide) rfl (by decide) rfl rfl).1,
   (c7_roundtrip testOracles sysEmpty reqPutOk evPutOk [] "user" rfl rfl (by decide)
      (by decide) (Or.inr rfl) (by decide) rfl (by decide) rfl (by decide) rfl rfl).2.1⟩

/-- C8 counterexample: a PUT whose payload tag equals the lowercase hex
SHA-256 of the (empty) body, on a path that spells the same hash in
uppercase, is rejected 401 at the payload pre-check — before any bucket
access (the trace holds only the role-store read) — because the code
compares the tag with the URL path hash as exact strings, not with the
body's hash. -/
theorem c8_counterexample :
    payloadValue (findPayload evPutC8) = bytesToHex (sha256 ([] : Bytes))
    ∧ (handleRequest testOracles sysEmpty reqPutC8).resp.status = 401
    ∧ (handleRequest testOracles sysEmpty reqPutC8).trace = [.kvGet "userpk"]
    ∧ bucketFind (handleRequest testOracles sysEmpty reqPutC8).bucket emptyShaUpper = none := by
  decide

/-- C8 amended: for an authorized PUT with a valid hash and body (and a
delegation header that is absent or well-formed), the response is the
payload-binding 401 exactly when the auth event carries a truthy payload
tag and either the tag differs from the URL path hash as an exact string,
or the object is absent and the body's SHA-256 does not match the path
hash; without a truthy payload tag no 401 is possible. -/
theorem c8_payload_binding (o : Oracles) (sys : Sys) (req : Req) (ev : NostrEvent)
    (bs : Bytes) (r : String)
    (hm : req.method = "PUT") (ha : req.auth = .token ev)
    (hv : validateEvent o ev req.url req.method = true)
    (hrole : kvGet sys.roleKV ev.pubkey = some r) (hr : r = "admin" ∨ r = "user")
    (hhex : isHex64 req.hashParam = true) (hbody : req.body = some bs)
    (hdl : ¬ req.delegationHeader = some none) :
    ((handleRequest o sys req).resp.status = 401
      ↔ payloadTruthy (findPayload ev) = true
        ∧ (¬ payloadValue (findPayload ev) = req.hashParam
           ∨ (bucketFind sys.bucket req.hashParam = none
              ∧ ¬ hexDecode req.hashParam = some (sha256 bs)))) := by
  have hra : roleAllowed { id := ev.pubkey, role := kvGet sys.roleKV ev.pubkey }
      ["admin", "user"] = true := by
    rw [roleAllowed_pair]
    rcases hr with h | h <;> simp [hrole, h]
  rw [handleRequest_put_run o sys req ev hm ha hv hra]
  by_cases hpm : payloadTagMismatch (findPayload ev) req.hashParam = true
  · have hparts : payloadTruthy (findPayload ev) = true
        ∧ ¬ payloadValue (findPayload ev) = req.hashParam := by
      unfold payloadTagMismatch at hpm
      simpa using hpm
    rw [putFile_payload_mismatch o sys req ev hhex hpm, hbody]
    exact ⟨fun _ => ⟨hparts.1, Or.inl hparts.2⟩, fun _ => rfl⟩
  · have hpm2 : payloadTagMismatch (findPayload ev) req.hashParam = false := by
      cases h : payloadTagMismatch (findPayload ev) req.hashParam with
      | true => exact absurd h hpm
      | false => rfl
    have hvaleq : payloadTruthy (findPayload ev) = true →
        payloadValue (findPayload ev) = req.hashParam := by
      intro ht
      unfold payloadTagMismatch at hpm2
      rw [ht] at hpm2
      simpa using hpm2
    cases hex : bucketFind sys.bucket req.hashParam with
    | some e =>
      rw [putFile_conflict o sys req ev bs e hhex hbody hpm2 hex]
      constructor
      · intro h
        simp at h
      · rintro ⟨ht, hval | ⟨habs2, _⟩⟩
        · exact absurd (hvaleq ht) hval
        · simp at habs2
    | none =>
      by_cases hint : hexDecode req.hashParam = some (sha256 bs)
      · rcases hdlc : req.delegationHeader with _ | od
        · rw [putFile_success_none o sys req ev bs hhex hbody hpm2 hex hint hdlc]
          constructor
          · intro h
            simp at h
          · rintro ⟨ht, hval | ⟨_, hint2⟩⟩
            · exact absurd (hvaleq ht) hval
            · exact absurd hint hint2
        · rcases od with _ | dd
          · exact absurd hdlc hdl
          · rw [putFile_success_some o sys req ev bs dd hhex hbody hpm2 hex hint hdlc]
            constructor
            · intro h
              simp at h
            · rintro ⟨ht, hval | ⟨_, hint2⟩⟩
              · exact absurd (hvaleq ht) hval
              · exact absurd hint hint2
      · rw [putFile_checksum_mismatch o sys req ev bs hhex hbody hpm2 hex hint]
        constructor
        · intro h
          by_cases ht : payloadTruthy (findPayload ev) = true
          · exact ⟨ht, Or.inr ⟨rfl, hint⟩⟩
          · have ht2 : payloadTruthy (findPayload ev) = false := by
              cases hb : payloadTruthy (findPayload ev) with
              | true => exact absurd hb ht
              | false => rfl
            simp [ht2] at h
        · rintro ⟨ht, _⟩
          simp [ht]

/-- C8 witness: at the concrete uppercase-path request the equivalence
instantiates with both sides true — the lowercase tag differs from the
uppercase path hash as a string, so the pre-check fires. -/
theorem c8_payload_binding_witness :
    ((handleRequest testOracles sysEmpty reqPutC8).resp.status = 401
      ↔ payloadTruthy (findPayload evPutC8) = true
        ∧ (¬ payloadValue (findPayload evPutC8) = emptyShaUpper
           ∨ (bucketFind sysEmpty.bucket emptyShaUpper = none
              ∧ ¬ hexDecode emptyShaUpper = some (sha256 ([] : Bytes))))) :=
  c8_payload_binding testOracles sysEmpty reqPutC8 evPutC8 [] "user" rfl rfl (by decide)
    (by decide) (Or.inr rfl) (by decide) rfl (by decide)

/-- C9: a successful authorized PUT answers 204, the full pipeline's
client-visible response equals the one fixed before the provenance job ran,
and — whichever way the blob store behaves about recording a checksum —
that response stands: when no checksum is recorded the scheduled
`handleMetadada` job fails with its missing-checksum error and the bucket
keeps no sidecar, yet the 204 is unchanged; when one is recorded the
sidecar appears. -/
theorem c9_provenance_isolated (o : Oracles) (sys : Sys) (req : Req) (ev : NostrEvent)
    (bs : Bytes) (r : String) (dOpt : Option Delegation)
    (hm : req.method = "PUT") (ha : req.auth = .token ev)
    (hv : validateEvent o ev req.url req.method = true)
    (hrole : kvGet sys.roleKV ev.pubkey = some r) (hr : r = "admin" ∨ r = "user")
    (hhex : isHex64 req.hashParam = true) (hbody : req.body = some bs)
    (hpm : payloadTagMismatch (findPayload ev) req.hashParam = false)
    (habs : bucketFind sys.bucket req.hashParam = none)
    (hint : hexDecode req.hashParam = some (sha256 bs))
    (hdel : req.delegationHeader = Option.map some dOpt) :
    (handleRequest o sys req).resp.status = 204
    ∧ (handleRequestAndProvenance o sys req).resp = (handleRequest o sys req).resp
    ∧ (o.r2Records = false →
         (∃ t, (handleRequest o sys req).task = some t
            ∧ handleMetadada o sys.privateKey (handleRequest o sys req).bucket t
                = .error "Failed to build file metadata: missing sha256 checksum.")
         ∧ (handleRequestAndProvenance o sys req).bucket = (handleRequest o sys req).bucket)
    ∧ (o.r2Records = true →
         ∃ mev, bucketFind (handleRequestAndProvenance o sys req).bucket
             (req.hashParam ++ ".metadata.json") = some (.doc mev)) := by
  have hra : roleAllowed { id := ev.pubkey, role := kvGet sys.roleKV ev.pubkey }
      ["admin", "user"] = true := by
    rw [roleAllowed_pair]
    rcases hr with h | h <;> simp [hrole, h]
  have h204 := handleRequest_put_204 o sys req ev bs dOpt hm ha hv hra hhex hbody hpm habs
    hint hdel
  refine ⟨by rw [h204], ?_, ?_, ?_⟩
  · cases hrec : o.r2Records with
    | false =>
      have hfull := full_put_no_checksum o sys req ev bs dOpt hm ha hv hra hhex hbody hpm
        habs hint hdel hrec
      rw [h204, hfull.2]
    | true =>
      have hfull := full_put_success o sys req ev bs dOpt hm ha hv hra hhex hbody hpm
        habs hint hdel hrec
      rw [h204, hfull]
  · intro hrec
    have hfull := full_put_no_checksum o sys req ev bs dOpt hm ha hv hra hhex hbody hpm
      habs hint hdel hrec
    refine ⟨⟨successTask o req bs dOpt, by rw [h204], ?_⟩, ?_⟩
    · rw [h204]
      exact hfull.1
    · rw [h204, hfull.2]
  · intro hrec
    have hfull := full_put_success o sys req ev bs dOpt hm ha hv hra hhex hbody hpm
      habs hint hdel hrec
    rw [hfull]
    exact ⟨metadataEvent o sys.privateKey (successTask o req bs dOpt) (sha256 bs),
      bucketFind_insert_self _ _ _⟩

/-- C9 witness: with a blob store recording no checksum, the concrete PUT
still answers 204 while its provenance job fails and writes nothing. -/
theorem c9_provenance_isolated_witness :
    (handleRequest oraclesNoCk sysEmpty reqPutOk).resp.status = 204
    ∧ (∃ t, (handleRequest oraclesNoCk sysEmpty reqPutOk).task = some t
         ∧ handleMetadada oraclesNoCk sysEmpty.privateKey
             (handleRequest oraclesNoCk sysEmpty reqPutOk).bucket t
             = .error "Failed to build file metadata: missing sha256 checksum.")
    ∧ (handleRequestAndProvenance oraclesNoCk sysEmpty reqPutOk).bucket
        = (handleRequest oraclesNoCk sysEmpty reqPutOk).bucket :=
  ⟨(c9_provenance_isolated oraclesNoCk sysEmpty reqPutOk evPutOk [] "user" none rfl rfl
      (by decide) (by decide) (Or.inr rfl) (by decide) rfl (by decide) rfl (by decide) rfl).1,
   ((c9_provenance_isolated oraclesNoCk sysEmpty reqPutOk evPutOk [] "user" none rfl rfl
      (by decide) (by decide) (Or.inr rfl) (by decide) rfl (by decide) rfl (by decide)
      rfl).2.2.1 rfl).1,
   ((c9_provenance_isolated oraclesNoCk sysEmpty reqPutOk evPutOk [] "user" none rfl rfl
      (by decide) (by decide) (Or.inr rfl) (by decide) rfl (by decide) rfl (by decide)
      rfl).2.2.1 rfl).2⟩

/-- C10: on a successful authorized PUT carrying an `x-nip-26-delegation`
header that parses to an arbitrary delegation `d`, the service-signed
sidecar event contains the tag `["delegation", d.from, d.cond, d.sig]`
copied verbatim — the theorem holds for every oracle, in particular when
the delegation-validity oracle rejects everything, so no component verified
the delegation before it was persisted under the service's own key. -/
theorem c10_forged_delegation_persisted (o : Oracles) (sys : Sys) (req : Req)
    (ev : NostrEvent) (bs : Bytes) (r : String) (d : Delegation)
    (hm : req.method = "PUT") (ha : req.auth = .token ev)
    (hv : validateEvent o ev req.url req.method = true)
    (hrole : kvGet sys.roleKV ev.pubkey = some r) (hr : r = "admin" ∨ r = "user")
    (hhex : isHex64 req.hashParam = true) (hbody : req.body = some bs)
    (hpm : payloadTagMismatch (findPayload ev) req.hashParam = false)
    (habs : bucketFind sys.bucket req.hashParam = none)
    (hint : hexDecode req.hashParam = some (sha256 bs))
    (hdel : req.delegationHeader = some (some d)) (hrec : o.r2Records = true) :
    (handleRequestAndProvenance o sys req).resp.status = 204
    ∧ ∃ mev : NostrEvent,
        bucketFind (handleRequestAndProvenance o sys req).bucket
            (req.hashParam ++ ".metadata.json") = some (.doc mev)
        ∧ ["delegation", d.from_, d.cond, d.sig] ∈ mev.tags
        ∧ mev.pubkey = o.getPublicKey sys.privateKey := by
  have hra : roleAllowed { id := ev.pubkey, role := kvGet sys.roleKV ev.pubkey }
      ["admin", "user"] = true := by
    rw [roleAllowed_pair]
    rcases hr with h | h <;> simp [hrole, h]
  have hfull := full_put_success o sys req ev bs (some d) hm ha hv hra hhex hbody hpm habs
    hint (by simpa using hdel) hrec
  rw [hfull]
  refine ⟨rfl,
    metadataEvent o sys.privateKey (successTask o req bs (some d)) (sha256 bs),
    bucketFind_insert_self _ _ _, ?_, rfl⟩
  simp [metadataEvent, finishEvent, metadataTags, successTask]

/-- C10 witness: with oracles that reject every delegation, the forged
header's delegation tag still lands verbatim in the service-signed
sidecar. -/
theorem c10_forged_delegation_persisted_witness :
    (handleRequestAndProvenance oraclesNoDeleg sysEmpty reqPutDeleg).resp.status = 204
    ∧ ∃ mev : NostrEvent,
        bucketFind (handleRequestAndProvenance oraclesNoDeleg sysEmpty reqPutDeleg).bucket
            (emptySha ++ ".metadata.json") = some (.doc mev)
        ∧ ["delegation", "forged-delegator-pubkey", "kind=1063", "forged-signature"]
            ∈ mev.tags
        ∧ mev.pubkey = oraclesNoDeleg.getPublicKey "service-key" :=
  c10_forged_delegation_persisted oraclesNoDeleg sysEmpty reqPutDeleg evPutOk [] "user"
    dForged rfl rfl (by decide) (by decide) (Or.inr rfl) (by decide) rfl (by decide) rfl
    (by decide) rfl rfl

end NostrR2
